import Mathlib

/-!
Verification of the core of `cargo-dirty`: the fingerprint-log parser
(`src/fingerprint_parser.rs`) and the rebuild causality graph
(`src/rebuild_graph.rs`, `src/rebuild_reason.rs`).

The Rust code is shallowly embedded: pure Rust functions become Lean
functions over `String` / `List Char`; the mutable `RebuildGraph` becomes
explicit state passing; the `HashMap` / `HashSet` fields become association
lists with the same observable insert semantics; the (non-terminating)
recursion of `is_transitively_affected` is given an explicit recursion-depth
fuel parameter, with `none` denoting that the Rust recursion at that depth
has not yet returned (so `(∀ fuel, ... = none)` models divergence).

Rust `char::is_whitespace` / `str::trim` use Unicode whitespace; the Lean
`Char.isWhitespace` covers the ASCII subset, which coincides on every input
considered here.
-/

namespace CargoDirty

/-- Context attached to a dependency change, from `rebuild_reason.rs`. -/
structure DependencyChangeContext where
  package_id : Option String
  target_type : Option String
  root_cause : Option String
deriving DecidableEq, Repr

/-- The `RebuildReason` from `rebuild_reason.rs`. -/
inductive RebuildReason where
  | EnvVarChanged (name : String) (old_value : Option String) (new_value : Option String)
  | UnitDependencyInfoChanged (name : String) (old_fingerprint : String)
      (new_fingerprint : String) (context : Option DependencyChangeContext)
  | RustflagsChanged (old : List String) (new : List String)
  | FeaturesChanged (old : String) (new : String)
  | ProfileConfigurationChanged
  | TargetConfigurationChanged
  | FileChanged (path : String)
  | Unknown (msg : String)
deriving DecidableEq, Repr

/-- The `PackageTarget` from `rebuild_graph.rs`. -/
structure PackageTarget where
  package_id : String
  target : Option String
deriving DecidableEq, Repr

/-- The `RebuildNode` from `rebuild_graph.rs`. -/
structure RebuildNode where
  package : PackageTarget
  reason : RebuildReason
deriving DecidableEq, Repr

/-- The `RebuildNode::is_root_cause`: true unless the reason is
`UnitDependencyInfoChanged`. -/
def RebuildNode.is_root_cause (n : RebuildNode) : Bool :=
  match n.reason with
  | .UnitDependencyInfoChanged _ _ _ _ => false
  | _ => true

/-- The `RootCauseChain` from `rebuild_graph.rs`. -/
structure RootCauseChain where
  root_cause : RebuildNode
  affected_packages : List RebuildNode
deriving DecidableEq, Repr

/-- First token of `str::split_whitespace`, or `none` when the string has no
non-whitespace characters. -/
def firstWhitespaceToken (s : String) : Option String :=
  match s.data.dropWhile Char.isWhitespace with
  | [] => none
  | l => some ((l.takeWhile (fun c => !c.isWhitespace)).asString)

/-- The `extract_package_name` from `rebuild_graph.rs`: the package id up to the
first whitespace, or the whole id when `split_whitespace` yields nothing. -/
def extractPackageName (package_id : String) : String :=
  (firstWhitespaceToken package_id).getD package_id

/-- The `normalize_crate_name` from `rebuild_graph.rs`: hyphens become
underscores. -/
def normalizeCrateName (name : String) : String :=
  (name.data.map (fun c => if c = '-' then '_' else c)).asString

/-- The `str::trim` for the ASCII inputs considered here: drop leading and
trailing whitespace characters. -/
def trimWs (l : List Char) : List Char :=
  ((l.dropWhile Char.isWhitespace).reverse.dropWhile Char.isWhitespace).reverse

/-- Rust str split at every slash character, keeping empty pieces. -/
def splitOnSlash : List Char → List (List Char)
  | [] => [[]]
  | c :: rest =>
    let r := splitOnSlash rest
    if c = '/' then [] :: r
    else
      match r with
      | [] => [[c]]
      | p :: ps => (c :: p) :: ps

/-- The `Vec::join("/")` on character pieces. -/
def joinSlash : List (List Char) → List Char
  | [] => []
  | [p] => p
  | p :: ps => p ++ '/' :: joinSlash ps

/-- The `Display` impl for `RebuildReason` from `rebuild_reason.rs`; its
output is the reason part of the deduplication key of `add_node`. -/
def reasonKey : RebuildReason → String
  | .EnvVarChanged name old_value new_value =>
    let change := match old_value, new_value with
      | some o, some n => "\x27" ++ o ++ "\x27 -> \x27" ++ n ++ "\x27"
      | some o, none => "\x27" ++ o ++ "\x27 -> unset"
      | none, some n => "unset -> \x27" ++ n ++ "\x27"
      | none, none => "changed"
    "env:" ++ name ++ " (" ++ change ++ ")"
  | .UnitDependencyInfoChanged name _ _ _ => "dep:" ++ name
  | .RustflagsChanged _ _ => "rustflags changed"
  | .FeaturesChanged old new => "features: " ++ old ++ " -> " ++ new
  | .ProfileConfigurationChanged => "profile changed"
  | .TargetConfigurationChanged => "target config changed"
  | .FileChanged path =>
    let short_path := (joinSlash (((splitOnSlash path.data).reverse.take 2).reverse)).asString
    "file:" ++ short_path
  | .Unknown msg => "unknown:" ++ msg

/-- The `RebuildGraph` state from `rebuild_graph.rs`; the hash map / set
fields are modelled as association lists with identical observable insert
semantics. -/
structure RebuildGraph where
  nodes : List RebuildNode
  dependency_causes : List (String × List Nat)
  package_to_node : List (PackageTarget × Nat)
  seen_entries : List (String × String)
deriving DecidableEq, Repr

/-- The `RebuildGraph::new` / `default`. -/
def RebuildGraph.new : RebuildGraph := ⟨[], [], [], []⟩

/-- The `HashMap::insert`: overwrite the value at an existing key, otherwise
append the binding. -/
def mapInsert {κ ν : Type} [DecidableEq κ] : List (κ × ν) → κ → ν → List (κ × ν)
  | [], k, v => [(k, v)]
  | (k1, v1) :: rest, k, v =>
    if k1 = k then (k, v) :: rest else (k1, v1) :: mapInsert rest k v

/-- The `self.dependency_causes.entry(key).or_default().push(idx)`. -/
def pushCause : List (String × List Nat) → String → Nat → List (String × List Nat)
  | [], k, idx => [(k, [idx])]
  | (k1, v1) :: rest, k, idx =>
    if k1 = k then (k1, v1 ++ [idx]) :: rest else (k1, v1) :: pushCause rest k idx

/-- The `RebuildGraph::add_node`: deduplicate on
`(extract_package_name, reason Display string)`, otherwise append the node,
record the package-to-index binding, and, for root causes, the
dependency-cause index. -/
def RebuildGraph.add_node (g : RebuildGraph) (node : RebuildNode) : Option Nat × RebuildGraph :=
  let package_name := extractPackageName node.package.package_id
  let reason_key := reasonKey node.reason
  let entry_key := (package_name, reason_key)
  if entry_key ∈ g.seen_entries then
    (none, g)
  else
    let idx := g.nodes.length
    let deps :=
      if node.is_root_cause then pushCause g.dependency_causes package_name idx
      else g.dependency_causes
    (some idx,
      { nodes := g.nodes ++ [node]
        dependency_causes := deps
        package_to_node := mapInsert g.package_to_node node.package idx
        seen_entries := g.seen_entries ++ [entry_key] })

/-- The `RebuildGraph::root_causes`: stored nodes that are root causes, in
insertion order. -/
def RebuildGraph.root_causes (g : RebuildGraph) : List RebuildNode :=
  g.nodes.filter (fun n => n.is_root_cause)

/-- The `RebuildGraph::is_empty`. -/
def RebuildGraph.is_empty (g : RebuildGraph) : Bool :=
  g.nodes.isEmpty

/-- The scan inside `is_transitively_affected`: walk the node list looking
for a node whose package normalizes to `depName`; on a dependency-change
node either conclude directly or consult `recur` (the recursive call at one
greater depth). -/
def transLoop (rootName : String) (recur : String → Option Bool) :
    String → List RebuildNode → Option Bool
  | _, [] => some false
  | depName, node :: rest =>
    if normalizeCrateName (extractPackageName node.package.package_id) =
        normalizeCrateName depName then
      match node.reason with
      | .UnitDependencyInfoChanged name _ _ _ =>
        if normalizeCrateName name = normalizeCrateName rootName then some true
        else
          match recur name with
          | none => none
          | some true => some true
          | some false => transLoop rootName recur depName rest
      | _ => transLoop rootName recur depName rest
    else transLoop rootName recur depName rest

/-- The `RebuildGraph::is_transitively_affected`, with an explicit recursion-depth
fuel: `none` means the Rust recursion has not returned within that depth, so
`(∀ fuel, ... = none)` states that the Rust function diverges. -/
def isTransitivelyAffected (g : RebuildGraph) : Nat → String → String → Option Bool
  | 0, _, _ => none
  | fuel + 1, depName, rootName =>
    transLoop rootName (fun name => isTransitivelyAffected g fuel name rootName)
      depName g.nodes

/-- The scan inside `find_affected_packages`: every non-root node whose
dependency name matches the root directly, or transitively through
`is_transitively_affected`.  The Rust visited set only ever excludes the
root index during the scan, which is what the `idx = rootIdx` test models. -/
def affectedLoop (g : RebuildGraph) (fuel rootIdx : Nat) (rootName rootNorm : String) :
    List (Nat × RebuildNode) → Option (List RebuildNode)
  | [] => some []
  | (idx, node) :: rest =>
    if idx = rootIdx then affectedLoop g fuel rootIdx rootName rootNorm rest
    else
      match node.reason with
      | .UnitDependencyInfoChanged name _ _ _ =>
        if normalizeCrateName name = rootNorm then
          match affectedLoop g fuel rootIdx rootName rootNorm rest with
          | none => none
          | some l => some (node :: l)
        else
          match isTransitivelyAffected g fuel name rootName with
          | none => none
          | some true =>
            match affectedLoop g fuel rootIdx rootName rootNorm rest with
            | none => none
            | some l => some (node :: l)
          | some false => affectedLoop g fuel rootIdx rootName rootNorm rest
      | _ => affectedLoop g fuel rootIdx rootName rootNorm rest

/-- The `RebuildGraph::find_affected_packages` (call sites always pass an
in-bounds root index). -/
def findAffectedPackages (g : RebuildGraph) (fuel rootIdx : Nat) :
    Option (List RebuildNode) :=
  match g.nodes.get? rootIdx with
  | none => none
  | some rootNode =>
    let rootName := extractPackageName rootNode.package.package_id
    affectedLoop g fuel rootIdx rootName (normalizeCrateName rootName) g.nodes.enum

/-- The loop of `root_cause_chains` over the enumerated root causes. -/
def chainsGo (g : RebuildGraph) (fuel : Nat) :
    List (Nat × RebuildNode) → Option (List RootCauseChain)
  | [] => some []
  | (idx, n) :: rest =>
    match findAffectedPackages g fuel idx with
    | none => none
    | some aff =>
      match chainsGo g fuel rest with
      | none => none
      | some l => some (⟨n, aff⟩ :: l)

/-- The `RebuildGraph::root_cause_chains`, fuelled like
`is_transitively_affected`. -/
def RebuildGraph.root_cause_chains (g : RebuildGraph) (fuel : Nat) :
    Option (List RootCauseChain) :=
  chainsGo g fuel (g.nodes.enum.filter (fun p => p.2.is_root_cause))

/-! ## The fingerprint-log parser (`fingerprint_parser.rs`)

The nom combinators are embedded over `List Char`.  A parser result is
`none` on failure, or `some (remaining, value)` on success. -/

/-- Result type of an embedded nom parser. -/
def PRes (α : Type) : Type := Option (List Char × α)

/-- Sequencing of embedded parsers (the `?` chaining in the Rust code). -/
def pbind {α β : Type} (p : PRes α) (f : List Char → α → PRes β) : PRes β :=
  match p with
  | none => none
  | some (i, a) => f i a

/-- nom `tag`: match a literal character sequence. -/
def ptag : List Char → List Char → PRes Unit
  | [], input => some (input, ())
  | _ :: _, [] => none
  | t :: ts, c :: cs => if c = t then ptag ts cs else none

/-- nom `char`: match a single character. -/
def pchar (ch : Char) : List Char → PRes Unit
  | [] => none
  | c :: cs => if c = ch then some (cs, ()) else none

/-- nom `space0`: consume zero or more spaces and tabs. -/
def pspace0 (input : List Char) : PRes Unit :=
  some (input.dropWhile (fun c => c = ' ' ∨ c = '\t'), ())

/-- nom `digit1` as used by `parse_number`: one or more ASCII digits, kept
as text. -/
def parse_number (input : List Char) : PRes String :=
  match input.takeWhile Char.isDigit with
  | [] => none
  | ds => some (input.drop ds.length, ds.asString)

/-- nom `take_until("\"")`: consume up to (not including) the next quote;
fail when there is none. -/
def ptakeUntilQuote : List Char → PRes (List Char)
  | [] => none
  | c :: cs =>
    if c = '"' then some (c :: cs, [])
    else
      match ptakeUntilQuote cs with
      | none => none
      | some (rest, pre) => some (rest, c :: pre)

/-- The `parse_quoted_string`: a string delimited by double quotes. -/
def parse_quoted_string (input : List Char) : PRes String :=
  pbind (pchar '"' input) fun i _ =>
  pbind (ptakeUntilQuote i) fun i s =>
  pbind (pchar '"' i) fun i _ =>
  some (i, s.asString)

/-- nom `alt` on two branches: the second runs only when the first fails. -/
def palt {α : Type} (p q : PRes α) : PRes α :=
  match p with
  | some r => some r
  | none => q

/-- The `parse_option_string`: `None`, or `Some("...")`. -/
def parse_option_string (input : List Char) : PRes (Option String) :=
  palt
    (pbind (ptag "None".data input) fun i _ => some (i, none))
    (pbind (ptag "Some(".data input) fun i _ =>
     pbind (parse_quoted_string i) fun i s =>
     pbind (pchar ')' i) fun i _ =>
     some (i, some s))

/-- The `parse_comma`: optional spaces, a comma, optional spaces. -/
def parse_comma (input : List Char) : PRes Unit :=
  pbind (pspace0 input) fun i _ =>
  pbind (pchar ',' i) fun i _ =>
  pspace0 i

/-- The repeated tuple of tag(field), space0, colon, space0 that
introduces a named field. -/
def parse_field_header (field : String) (input : List Char) : PRes Unit :=
  pbind (ptag field.data input) fun i _ =>
  pbind (pspace0 i) fun i _ =>
  pbind (pchar ':' i) fun i _ =>
  pspace0 i

/-- The `parse_env_var_changed`. -/
def parse_env_var_changed (input : List Char) : PRes RebuildReason :=
  pbind (ptag "EnvVarChanged".data input) fun i _ =>
  pbind (pspace0 i) fun i _ =>
  pbind (pchar '\x7b' i) fun i _ =>
  pbind (pspace0 i) fun i _ =>
  pbind (parse_field_header "name" i) fun i _ =>
  pbind (parse_quoted_string i) fun i name =>
  pbind (parse_comma i) fun i _ =>
  pbind (parse_field_header "old_value" i) fun i _ =>
  pbind (parse_option_string i) fun i old_value =>
  pbind (parse_comma i) fun i _ =>
  pbind (parse_field_header "new_value" i) fun i _ =>
  pbind (parse_option_string i) fun i new_value =>
  pbind (pspace0 i) fun i _ =>
  pbind (pchar '\x7d' i) fun i _ =>
  some (i, RebuildReason.EnvVarChanged name old_value new_value)

/-- The `parse_unit_dependency_info_changed` (the parsed `new_name` is
discarded, as in the Rust code). -/
def parse_unit_dependency_info_changed (input : List Char) : PRes RebuildReason :=
  pbind (ptag "UnitDependencyInfoChanged".data input) fun i _ =>
  pbind (pspace0 i) fun i _ =>
  pbind (pchar '\x7b' i) fun i _ =>
  pbind (pspace0 i) fun i _ =>
  pbind (parse_field_header "old_name" i) fun i _ =>
  pbind (parse_quoted_string i) fun i old_name =>
  pbind (parse_comma i) fun i _ =>
  pbind (parse_field_header "old_fingerprint" i) fun i _ =>
  pbind (parse_number i) fun i old_fingerprint =>
  pbind (parse_comma i) fun i _ =>
  pbind (parse_field_header "new_name" i) fun i _ =>
  pbind (parse_quoted_string i) fun i _ =>
  pbind (parse_comma i) fun i _ =>
  pbind (parse_field_header "new_fingerprint" i) fun i _ =>
  pbind (parse_number i) fun i new_fingerprint =>
  pbind (pspace0 i) fun i _ =>
  pbind (pchar '\x7d' i) fun i _ =>
  some (i, RebuildReason.UnitDependencyInfoChanged old_name old_fingerprint new_fingerprint none)

/-- The `parse_target_configuration_changed`: just the tag. -/
def parse_target_configuration_changed (input : List Char) : PRes RebuildReason :=
  pbind (ptag "TargetConfigurationChanged".data input) fun i _ =>
  some (i, RebuildReason.TargetConfigurationChanged)

/-- The `parse_file_time`. -/
def parse_file_time (input : List Char) : PRes (String × String) :=
  pbind (ptag "FileTime".data input) fun i _ =>
  pbind (pspace0 i) fun i _ =>
  pbind (pchar '\x7b' i) fun i _ =>
  pbind (pspace0 i) fun i _ =>
  pbind (parse_field_header "seconds" i) fun i _ =>
  pbind (parse_number i) fun i seconds =>
  pbind (parse_comma i) fun i _ =>
  pbind (parse_field_header "nanos" i) fun i _ =>
  pbind (parse_number i) fun i nanos =>
  pbind (pspace0 i) fun i _ =>
  pbind (pchar '\x7d' i) fun i _ =>
  some (i, (seconds, nanos))

/-- The `parse_changed_file`: only the `stale` path is kept. -/
def parse_changed_file (input : List Char) : PRes String :=
  pbind (ptag "ChangedFile".data input) fun i _ =>
  pbind (pspace0 i) fun i _ =>
  pbind (pchar '\x7b' i) fun i _ =>
  pbind (pspace0 i) fun i _ =>
  pbind (parse_field_header "reference" i) fun i _ =>
  pbind (parse_quoted_string i) fun i _ =>
  pbind (parse_comma i) fun i _ =>
  pbind (parse_field_header "reference_mtime" i) fun i _ =>
  pbind (parse_file_time i) fun i _ =>
  pbind (parse_comma i) fun i _ =>
  pbind (parse_field_header "stale" i) fun i _ =>
  pbind (parse_quoted_string i) fun i stale_path =>
  pbind (parse_comma i) fun i _ =>
  pbind (parse_field_header "stale_mtime" i) fun i _ =>
  pbind (parse_file_time i) fun i _ =>
  pbind (pspace0 i) fun i _ =>
  pbind (pchar '\x7d' i) fun i _ =>
  some (i, stale_path)

/-- The `parse_fs_status_outdated_changed_file`. -/
def parse_fs_status_outdated_changed_file (input : List Char) : PRes RebuildReason :=
  pbind (ptag "FsStatusOutdated".data input) fun i _ =>
  pbind (pchar '(' i) fun i _ =>
  pbind (ptag "StaleItem".data i) fun i _ =>
  pbind (pchar '(' i) fun i _ =>
  pbind (parse_changed_file i) fun i path =>
  pbind (pchar ')' i) fun i _ =>
  pbind (pchar ')' i) fun i _ =>
  some (i, RebuildReason.FileChanged path)

/-- The `parse_fs_status_outdated_stale_dep`. -/
def parse_fs_status_outdated_stale_dep (input : List Char) : PRes RebuildReason :=
  pbind (ptag "FsStatusOutdated".data input) fun i _ =>
  pbind (pchar '(' i) fun i _ =>
  pbind (ptag "StaleDepFingerprint".data i) fun i _ =>
  pbind (pspace0 i) fun i _ =>
  pbind (pchar '\x7b' i) fun i _ =>
  pbind (pspace0 i) fun i _ =>
  pbind (parse_field_header "name" i) fun i _ =>
  pbind (parse_quoted_string i) fun i name =>
  pbind (pspace0 i) fun i _ =>
  pbind (pchar '\x7d' i) fun i _ =>
  pbind (pchar ')' i) fun i _ =>
  some (i, RebuildReason.UnitDependencyInfoChanged name "" "" none)

/-- The `parse_dirty_reason_content`: the `alt` over the five shapes, in the
Rust order. -/
def parse_dirty_reason_content (input : List Char) : PRes RebuildReason :=
  palt (parse_env_var_changed input)
    (palt (parse_unit_dependency_info_changed input)
      (palt (parse_target_configuration_changed input)
        (palt (parse_fs_status_outdated_stale_dep input)
          (parse_fs_status_outdated_changed_file input))))

/-- First index at which `pat` occurs in the input (`str::find` for a
substring pattern). -/
def findSubstrIdx (pat : List Char) : List Char → Option Nat
  | [] => if pat.isEmpty then some 0 else none
  | c :: cs =>
    if pat.isPrefixOf (c :: cs) then some 0
    else (findSubstrIdx pat cs).map (· + 1)

/-- The `str::contains` for a substring pattern, via `findSubstrIdx`. -/
def containsSubstr (s pat : String) : Bool :=
  (findSubstrIdx pat.data s.data).isSome

/-- The `parse_rebuild_reason`: locate the first `dirty:` marker, trim leading
whitespace from the remainder, and run the shape dispatch; any unconsumed
suffix is discarded. -/
def parse_rebuild_reason (input : String) : Option RebuildReason :=
  match findSubstrIdx "dirty:".data input.data with
  | none => none
  | some dirty_start =>
    let dirty_content := (input.data.drop (dirty_start + 6)).dropWhile Char.isWhitespace
    match parse_dirty_reason_content dirty_content with
    | some (_, reason) => some reason
    | none => none

/-- The `extract_package_context`: scan the whole line for `package_id=` and
`target=` markers; a missing `package_id=` yields the sentinel id
`"unknown"`. -/
def extract_package_context (line : String) : PackageTarget :=
  let chars := line.data
  let package_id :=
    match findSubstrIdx "package_id=".data chars with
    | none => "unknown"
    | some pkg_start =>
      let after_pkg := chars.drop (pkg_start + 11)
      let e :=
        match findSubstrIdx " target=".data after_pkg with
        | some n => n
        | none =>
          match after_pkg.findIdx? (fun c => c = '\x7d') with
          | some n => n
          | none => after_pkg.length
      (trimWs (after_pkg.take e)).asString
  let target :=
    match findSubstrIdx "target=".data chars with
    | none => none
    | some target_start =>
      let after_target := chars.drop (target_start + 7)
      match after_target with
      | '"' :: stripped =>
        match stripped.findIdx? (fun c => c = '"') with
        | some quote_end => some ((stripped.take quote_end).asString)
        | none => none
      | _ =>
        let e :=
          match after_target.findIdx? (fun c => c = ' ' ∨ c = '\x7d' ∨ c = ':') with
          | some n => n
          | none => after_target.length
        let value := trimWs (after_target.take e)
        if value.isEmpty then none else some value.asString
  ⟨package_id, target⟩

/-- The `ParsedRebuildEntry` from `fingerprint_parser.rs`. -/
structure ParsedRebuildEntry where
  package : PackageTarget
  reason : RebuildReason
deriving DecidableEq, Repr

/-- The `parse_rebuild_entry`: a reason plus the package context of the line. -/
def parse_rebuild_entry (input : String) : Option ParsedRebuildEntry :=
  match parse_rebuild_reason input with
  | none => none
  | some reason => some ⟨extract_package_context input, reason⟩

/-- The `RootCauseChain::total_rebuilds`: the root plus its affected packages. -/
def RootCauseChain.total_rebuilds (c : RootCauseChain) : Nat :=
  1 + c.affected_packages.length

/-! ## Concrete scenarios used by the claims -/

/-- C1: a root-cause node for package `c`. -/
def cyclicRoot : RebuildNode := ⟨⟨"c v1", none⟩, .EnvVarChanged "X" none none⟩

/-- C1: package `a` reported as rebuilt because of dependency `b`. -/
def cyclicDepA : RebuildNode := ⟨⟨"a v1", none⟩, .UnitDependencyInfoChanged "b" "1" "2" none⟩

/-- C1: package `b` reported as rebuilt because of dependency `a`. -/
def cyclicDepB : RebuildNode := ⟨⟨"b v1", none⟩, .UnitDependencyInfoChanged "a" "1" "2" none⟩

/-- C1: the graph built by three `add_node` calls whose dependency-change
reasons name each other cyclically. -/
def cyclicGraph : RebuildGraph :=
  (((RebuildGraph.new.add_node cyclicRoot).2.add_node cyclicDepA).2.add_node cyclicDepB).2

/-- C1: the one-step unfolding shape of the fuelled recursion (the identity
on `Option Bool`, written as the case split the recursion produces). -/
def optStep : Option Bool → Option Bool
  | none => none
  | some true => some true
  | some false => some false

/-- C4: first line of end-to-end scenario A. -/
def scenarioALine1 : String :=
  "[package_id=libz-sys v1.1.23: dirty: EnvVarChanged\x7bname:\"CC\", old_value:Some(\"gcc\"), new_value:None\x7d]"

/-- C4: second line of end-to-end scenario A. -/
def scenarioALine2 : String :=
  "[package_id=rusqlite v0.31.0: dirty: UnitDependencyInfoChanged\x7bold_name:\"libz-sys\", old_fingerprint:123, new_name:\"libz-sys\", new_fingerprint:456\x7d]"

/-- C4: the node parsed from the first line (the extracted package id runs
up to the first `}` of the line, as `extract_package_context` specifies). -/
def scenarioANode1 : RebuildNode :=
  ⟨⟨"libz-sys v1.1.23: dirty: EnvVarChanged\x7bname:\"CC\", old_value:Some(\"gcc\"), new_value:None",
    none⟩,
   .EnvVarChanged "CC" (some "gcc") none⟩

/-- C4: the node parsed from the second line. -/
def scenarioANode2 : RebuildNode :=
  ⟨⟨"rusqlite v0.31.0: dirty: UnitDependencyInfoChanged\x7bold_name:\"libz-sys\", old_fingerprint:123, new_name:\"libz-sys\", new_fingerprint:456",
    none⟩,
   .UnitDependencyInfoChanged "libz-sys" "123" "456" none⟩

/-- C4: the graph built from both parsed entries. -/
def scenarioAGraph : RebuildGraph :=
  ((RebuildGraph.new.add_node scenarioANode1).2.add_node scenarioANode2).2

/-- C3: first inserted node, package `libz-sys v1.1.23`. -/
def hyphenNode : RebuildNode := ⟨⟨"libz-sys v1.1.23", none⟩, .ProfileConfigurationChanged⟩

/-- C3: second inserted node, same reason, package `libz_sys v1.1.24`. -/
def underscoreNode : RebuildNode := ⟨⟨"libz_sys v1.1.24", none⟩, .ProfileConfigurationChanged⟩

/-- C8: a node used to build a witness graph whose dedup key is taken. -/
def seenDemoNode : RebuildNode := ⟨⟨"demo v1.0.0", none⟩, .ProfileConfigurationChanged⟩

/-- C9: a `FileChanged` node for `/a/src/main.rs`. -/
def fileNodeA : RebuildNode := ⟨⟨"pkg v1.0.0", none⟩, .FileChanged "/a/src/main.rs"⟩

/-- C9: a `FileChanged` node for the distinct path `/b/src/main.rs` sharing
its last two `/`-separated components with `/a/src/main.rs`. -/
def fileNodeB : RebuildNode := ⟨⟨"pkg v1.0.0", none⟩, .FileChanged "/b/src/main.rs"⟩

/-! ## The well-formed `EnvVarChanged` rendering (C6) -/

/-- Textual rendering of an optional value: `None` or `Some("...")`. -/
def renderOptValue : Option String → String
  | none => "None"
  | some v => "Some(\"" ++ v ++ "\")"

/-- The well-formed textual rendering
`EnvVarChanged { name: "N", old_value: O, new_value: V }`. -/
def renderEnvVarChanged (name : String) (old_value new_value : Option String) : String :=
  "EnvVarChanged \x7b name: \"" ++ name ++ "\", old_value: " ++ renderOptValue old_value ++
    ", new_value: " ++ renderOptValue new_value ++ " \x7d"

/-- A string with no embedded double quote, so that its quoted rendering is
well formed. -/
def quoteFree (s : String) : Bool := !s.data.contains '"'

/-- The `quoteFree` lifted to an optional value. -/
def optValueQuoteFree : Option String → Bool
  | none => true
  | some v => quoteFree v

/-- The character tail of the rendering from the `new_value` payload on;
used to state the parsing lemmas in right-associated form. -/
def newTail (new_value : Option String) : List Char :=
  (renderOptValue new_value).data ++ " \x7d".data

/-- The character tail of the rendering from the `old_value` payload on. -/
def oldTail (old_value new_value : Option String) : List Char :=
  (renderOptValue old_value).data ++ (", new_value: ".data ++ newTail new_value)

/-- The character tail of the rendering after the opening `name: "` quote. -/
def envVarTail (name : String) (old_value new_value : Option String) : List Char :=
  name.data ++ ("\", old_value: ".data ++ oldTail old_value new_value)

/-! ## Helper lemmas -/

set_option maxRecDepth 40000

lemma pbind_some {α β : Type} (i : List Char) (a : α) (f : List Char → α → PRes β) :
    pbind (some (i, a)) f = f i a := rfl

lemma add_node_noop_of_seen (g : RebuildGraph) (n : RebuildNode)
    (h : (extractPackageName n.package.package_id, reasonKey n.reason) ∈ g.seen_entries) :
    g.add_node n = (none, g) := by
  unfold RebuildGraph.add_node
  simp [h]

lemma cyclic_trans_none (fuel : Nat) :
    isTransitivelyAffected cyclicGraph fuel "b" "c" = none ∧
    isTransitivelyAffected cyclicGraph fuel "a" "c" = none := by
  induction fuel with
  | zero => exact ⟨rfl, rfl⟩
  | succ f ih =>
    have e1 : isTransitivelyAffected cyclicGraph (f + 1) "b" "c" =
        optStep (isTransitivelyAffected cyclicGraph f "a" "c") := rfl
    have e2 : isTransitivelyAffected cyclicGraph (f + 1) "a" "c" =
        optStep (isTransitivelyAffected cyclicGraph f "b" "c") := rfl
    rw [e1, e2, ih.1, ih.2]
    exact ⟨rfl, rfl⟩

/-! ## The claims -/

/-- C1: the claim asserts that `root_cause_chains` and the recursive helper
`is_transitively_affected` terminate for every graph built by `add_node`
calls, including graphs whose dependency-change reasons name each other
cyclically.  The code has no visited set in `is_transitively_affected`, so
on `cyclicGraph` (packages `a` and `b` naming each other) the recursion
never returns: at every recursion depth the fuelled embedding is still
undecided (`none`), and `root_cause_chains` consequently never returns
either.  The Rust program overflows its stack on this input. -/
theorem c1_transitive_check_diverges (fuel : Nat) :
    isTransitivelyAffected cyclicGraph fuel "b" "c" = none ∧
    cyclicGraph.root_cause_chains fuel = none := by
  refine ⟨(cyclic_trans_none fuel).1, ?_⟩
  have hb := (cyclic_trans_none fuel).1
  have hfa : findAffectedPackages cyclicGraph fuel 0 = none := by
    have e : findAffectedPackages cyclicGraph fuel 0 =
        (match isTransitivelyAffected cyclicGraph fuel "b" "c" with
         | none => none
         | some true =>
           (match (match isTransitivelyAffected cyclicGraph fuel "a" "c" with
                   | none => none
                   | some true => some [cyclicDepB]
                   | some false => some ([] : List RebuildNode)) with
            | none => none
            | some l => some (cyclicDepA :: l))
         | some false =>
           match isTransitivelyAffected cyclicGraph fuel "a" "c" with
           | none => none
           | some true => some [cyclicDepB]
           | some false => some ([] : List RebuildNode)) := rfl
    rw [hb] at e
    exact e
  have e2 : cyclicGraph.root_cause_chains fuel =
      (match findAffectedPackages cyclicGraph fuel 0 with
       | none => none
       | some aff => some [(⟨cyclicRoot, aff⟩ : RootCauseChain)]) := rfl
  rw [hfa] at e2
  exact e2

/-- C2: two nodes for the same package target whose reasons are both
`UnitDependencyInfoChanged` naming the same dependency deduplicate
regardless of their fingerprint values (and of their contexts): the first
`add_node` returns index 0, the second returns `none`, and exactly one node
is stored.  This holds for all fingerprint values, in particular different
ones. -/
theorem c2_unit_dep_dedup_ignores_fingerprints (p : PackageTarget) (d f1 f2 f3 f4 : String)
    (c1 c2 : Option DependencyChangeContext) :
    (RebuildGraph.new.add_node ⟨p, .UnitDependencyInfoChanged d f1 f2 c1⟩).1 = some 0 ∧
    ((RebuildGraph.new.add_node ⟨p, .UnitDependencyInfoChanged d f1 f2 c1⟩).2.add_node
        ⟨p, .UnitDependencyInfoChanged d f3 f4 c2⟩).1 = none ∧
    ((RebuildGraph.new.add_node ⟨p, .UnitDependencyInfoChanged d f1 f2 c1⟩).2.add_node
        ⟨p, .UnitDependencyInfoChanged d f3 f4 c2⟩).2.nodes =
      [⟨p, .UnitDependencyInfoChanged d f1 f2 c1⟩] := by
  have hmem : (extractPackageName p.package_id,
      reasonKey (.UnitDependencyInfoChanged d f3 f4 c2)) ∈
      (RebuildGraph.new.add_node ⟨p, .UnitDependencyInfoChanged d f1 f2 c1⟩).2.seen_entries := by
    show _ ∈ [(extractPackageName p.package_id, "dep:" ++ d)]
    exact List.mem_singleton.mpr rfl
  have hnoop := add_node_noop_of_seen _ ⟨p, .UnitDependencyInfoChanged d f3 f4 c2⟩ hmem
  refine ⟨rfl, ?_, ?_⟩
  · rw [hnoop]
  · rw [hnoop]
    rfl

/-- C3, counterexample: `add_node` computes its package key with
`extract_package_name` alone, which does not identify `-` with `_`.  The
packages `libz-sys v1.1.23` and `libz_sys v1.1.24` with equal reasons are
therefore both stored: the second call returns index 1, not absence as the
claim states. -/
theorem c3_hyphen_underscore_not_equivalent :
    ((RebuildGraph.new.add_node hyphenNode).2.add_node underscoreNode).1 = some 1 ∧
    ((RebuildGraph.new.add_node hyphenNode).2.add_node underscoreNode).1 ≠ none ∧
    ((RebuildGraph.new.add_node hyphenNode).2.add_node underscoreNode).2.nodes =
      [hyphenNode, underscoreNode] := by
  refine ⟨rfl, ?_, rfl⟩
  decide

/-- C3, amended: the dedup package key of `add_node` drops the version
suffix (the first whitespace-delimited token) but treats `-` and `_` as
distinct; inserting two nodes with equal reasons deduplicates exactly when
the first tokens of the two package ids are equal, the second call then
returning absence. -/
theorem c3_amended_dedup_exact_first_token (pid1 pid2 : String) (t1 t2 : Option String)
    (r : RebuildReason) (h : extractPackageName pid1 = extractPackageName pid2) :
    ((RebuildGraph.new.add_node ⟨⟨pid1, t1⟩, r⟩).2.add_node ⟨⟨pid2, t2⟩, r⟩).1 = none := by
  have hmem : (extractPackageName pid2, reasonKey r) ∈
      (RebuildGraph.new.add_node ⟨⟨pid1, t1⟩, r⟩).2.seen_entries := by
    show _ ∈ [(extractPackageName pid1, reasonKey r)]
    rw [h]
    exact List.mem_singleton.mpr rfl
  rw [add_node_noop_of_seen _ _ hmem]

/-- C3, witness for the amended claim at `libz-sys v1.1.23` /
`libz-sys v1.1.24`. -/
theorem c3_amended_witness :
    extractPackageName "libz-sys v1.1.23" = extractPackageName "libz-sys v1.1.24" ∧
    ((RebuildGraph.new.add_node ⟨⟨"libz-sys v1.1.23", none⟩, .ProfileConfigurationChanged⟩).2.add_node
        ⟨⟨"libz-sys v1.1.24", some "lib"⟩, .ProfileConfigurationChanged⟩).1 = none :=
  ⟨by decide,
   c3_amended_dedup_exact_first_token "libz-sys v1.1.23" "libz-sys v1.1.24" none (some "lib")
     .ProfileConfigurationChanged (by decide)⟩

/-- C8: `add_node` is atomic on rejection: when the
`(package key, reason key)` pair of the node is already recorded, the call returns
absence and the graph — its node sequence, its dependency-cause index, and
its emptiness — is exactly unchanged. -/
theorem c8_add_node_rejection_noop (g : RebuildGraph) (n : RebuildNode)
    (h : (extractPackageName n.package.package_id, reasonKey n.reason) ∈ g.seen_entries) :
    g.add_node n = (none, g) ∧
    (g.add_node n).2.nodes = g.nodes ∧
    (g.add_node n).2.nodes.length = g.nodes.length ∧
    (g.add_node n).2.dependency_causes = g.dependency_causes ∧
    (g.add_node n).2.is_empty = g.is_empty := by
  have e := add_node_noop_of_seen g n h
  exact ⟨e, by rw [e], by rw [e], by rw [e], by rw [e]⟩

/-- C8, witness: re-adding the already-stored `seenDemoNode`. -/
theorem c8_add_node_rejection_noop_witness :
    ((extractPackageName seenDemoNode.package.package_id, reasonKey seenDemoNode.reason) ∈
      (RebuildGraph.new.add_node seenDemoNode).2.seen_entries) ∧
    (RebuildGraph.new.add_node seenDemoNode).2.add_node seenDemoNode =
      (none, (RebuildGraph.new.add_node seenDemoNode).2) :=
  ⟨by decide, (c8_add_node_rejection_noop (RebuildGraph.new.add_node seenDemoNode).2
      seenDemoNode (by decide)).1⟩

/-- C4: end-to-end scenario A.  Parsing the two lines yields the env-var
entry for `libz-sys` and the dependency-change entry for `rusqlite`; adding
both to a fresh graph gives exactly one root cause (the `EnvVarChanged`
node) and one chain whose `affected_packages` is exactly the `rusqlite`
node, for every recursion-depth fuel, so the total attributed rebuilds are
2. -/
theorem c4_scenario_a :
    parse_rebuild_entry scenarioALine1 =
      some ⟨scenarioANode1.package, scenarioANode1.reason⟩ ∧
    parse_rebuild_entry scenarioALine2 =
      some ⟨scenarioANode2.package, scenarioANode2.reason⟩ ∧
    scenarioAGraph.root_causes = [scenarioANode1] ∧
    (∀ fuel, scenarioAGraph.root_cause_chains fuel =
      some [⟨scenarioANode1, [scenarioANode2]⟩]) ∧
    RootCauseChain.total_rebuilds ⟨scenarioANode1, [scenarioANode2]⟩ = 2 :=
  ⟨rfl, rfl, rfl, fun _ => rfl, rfl⟩

/-- C5: `parse_rebuild_reason` is total; every line without the `dirty:`
marker parses to `none`, and so do the truncated or malformed renderings:
a missing closing brace, a missing closing quote, the bare marker, and the
empty string. -/
theorem c5_parser_totality :
    (∀ s : String, containsSubstr s "dirty:" = false → parse_rebuild_reason s = none) ∧
    parse_rebuild_reason "dirty: EnvVarChanged \x7b name: \"CC\", old_value: Some(\"gcc\")" = none ∧
    parse_rebuild_reason "dirty: EnvVarChanged \x7b name: \"CC, old_value: None, new_value: None \x7d" = none ∧
    parse_rebuild_reason "dirty:" = none ∧
    parse_rebuild_reason "" = none := by
  refine ⟨?_, rfl, rfl, rfl, rfl⟩
  intro s h
  have hf : findSubstrIdx "dirty:".data s.data = none := by
    cases hfi : findSubstrIdx "dirty:".data s.data with
    | none => rfl
    | some n =>
      rw [containsSubstr, hfi] at h
      simp at h
  unfold parse_rebuild_reason
  rw [hf]

/-- C5, witness: a concrete line without the marker parses to `none`. -/
theorem c5_parser_totality_witness :
    containsSubstr "  INFO cargo fingerprint: some other log message" "dirty:" = false ∧
    parse_rebuild_reason "  INFO cargo fingerprint: some other log message" = none :=
  ⟨by decide,
   c5_parser_totality.1 "  INFO cargo fingerprint: some other log message" (by decide)⟩

/-- C7, counterexample: the claim says a line without `package_id=` yields
the sentinel `⟨"unknown", none⟩` even when a `target=` marker is present;
but `extract_package_context` extracts the target independently, so the
line `target=foo` (which has no `package_id=`) yields target `some "foo"`,
not `none`. -/
theorem c7_target_extracted_without_package_id :
    containsSubstr "target=foo" "package_id=" = false ∧
    extract_package_context "target=foo" = ⟨"unknown", some "foo"⟩ ∧
    extract_package_context "target=foo" ≠ ⟨"unknown", none⟩ := by
  refine ⟨rfl, rfl, ?_⟩
  decide

/-- C7, amended: for every line without `package_id=`, the extracted
package id is the sentinel `"unknown"`.  The original claim that the target
is then `none` is dropped: the target is computed independently of
`package_id=`, from the first `target=` marker of the line, and can be
present (see the counterexample). -/
theorem c7_amended_unknown_package (line : String)
    (h : containsSubstr line "package_id=" = false) :
    (extract_package_context line).package_id = "unknown" := by
  have hf : findSubstrIdx "package_id=".data line.data = none := by
    cases hfi : findSubstrIdx "package_id=".data line.data with
    | none => rfl
    | some n =>
      rw [containsSubstr, hfi] at h
      simp at h
  simp only [extract_package_context, hf]

/-- C7, witness for the amended claim at the line `target=foo`. -/
theorem c7_amended_witness :
    containsSubstr "target=foo" "package_id=" = false ∧
    (extract_package_context "target=foo").package_id = "unknown" :=
  ⟨by decide, c7_amended_unknown_package "target=foo" (by decide)⟩

/-- C9: the dedup key of a `FileChanged` reason keeps only the last two
`/`-separated components of the path, so the distinct paths
`/a/src/main.rs` and `/b/src/main.rs` share the key `file:src/main.rs`;
inserting both nodes for the same package stores only the first, the
second `add_node` returning absence even though the nodes describe
different files. -/
theorem c9_file_changed_dedup_last_two_components :
    reasonKey (.FileChanged "/a/src/main.rs") = "file:src/main.rs" ∧
    reasonKey (.FileChanged "/b/src/main.rs") = "file:src/main.rs" ∧
    ("/a/src/main.rs" : String) ≠ "/b/src/main.rs" ∧
    (RebuildGraph.new.add_node fileNodeA).1 = some 0 ∧
    ((RebuildGraph.new.add_node fileNodeA).2.add_node fileNodeB).1 = none ∧
    ((RebuildGraph.new.add_node fileNodeA).2.add_node fileNodeB).2.nodes = [fileNodeA] := by
  refine ⟨rfl, rfl, ?_, rfl, rfl, rfl⟩
  decide

/-- C10: after a successfully matched reason shape the parser silently
discards any unconsumed text: a line whose content after the first
`dirty:` marker begins with `TargetConfigurationChanged` followed by
further characters still parses to `some TargetConfigurationChanged`
rather than being rejected. -/
theorem c10_trailing_garbage_accepted :
    parse_rebuild_reason "prepare dirty: TargetConfigurationChangedXYZ trailing garbage" =
      some .TargetConfigurationChanged := rfl

/-! ## Parsing lemmas for the well-formed `EnvVarChanged` rendering -/

lemma pbind_none {α β : Type} (f : List Char → α → PRes β) :
    pbind (none : PRes α) f = none := rfl

lemma palt_some {α : Type} (r : List Char × α) (q : PRes α) :
    palt (some r) q = some r := rfl

lemma palt_none {α : Type} (q : PRes α) : palt (none : PRes α) q = q := rfl

lemma strdata (s t : String) : (s ++ t).data = s.data ++ t.data := rfl

lemma ptakeUntilQuote_append (l r : List Char) (h : l.contains '"' = false) :
    ptakeUntilQuote (l ++ '"' :: r) = some ('"' :: r, l) := by
  induction l with
  | nil =>
    show ptakeUntilQuote ('"' :: r) = some ('"' :: r, [])
    unfold ptakeUntilQuote
    rw [if_pos rfl]
  | cons c cs ih =>
    simp only [List.contains_cons, Bool.or_eq_false_iff] at h
    have hne : ¬(c = '"') := fun he => by simp [he] at h
    show ptakeUntilQuote (c :: (cs ++ '"' :: r)) = some ('"' :: r, c :: cs)
    unfold ptakeUntilQuote
    rw [if_neg hne, ih h.2]

lemma parse_quoted_string_append (s : String) (r : List Char) (h : quoteFree s = true) :
    parse_quoted_string ('"' :: (s.data ++ '"' :: r)) = some (r, s) := by
  have hc : s.data.contains '"' = false := by
    rw [quoteFree, Bool.not_eq_true'] at h
    exact h
  unfold parse_quoted_string
  rw [show pchar '"' ('"' :: (s.data ++ '"' :: r)) = some (s.data ++ '"' :: r, ()) from rfl,
    pbind_some, ptakeUntilQuote_append _ _ hc, pbind_some,
    show pchar '"' ('"' :: r) = some (r, ()) from rfl, pbind_some]
  rfl

lemma parse_option_string_append (o : Option String) (r : List Char)
    (h : optValueQuoteFree o = true) :
    parse_option_string ((renderOptValue o).data ++ r) = some (r, o) := by
  cases o with
  | none => rfl
  | some v =>
    have hv : quoteFree v = true := h
    have hin : (renderOptValue (some v)).data ++ r =
        "Some(\"".data ++ (v.data ++ ("\")".data ++ r)) := by
      show ("Some(\"" ++ v ++ "\")").data ++ r = _
      simp only [strdata, List.append_assoc]
    rw [hin]
    unfold parse_option_string
    have t1 : ptag "None".data ("Some(\"".data ++ (v.data ++ ("\")".data ++ r))) = none := rfl
    have t2 : ptag "Some(".data ("Some(\"".data ++ (v.data ++ ("\")".data ++ r))) =
        some ('"' :: (v.data ++ '"' :: (')' :: r)), ()) := rfl
    have t3 := parse_quoted_string_append v (')' :: r) hv
    have t4 : pchar ')' (')' :: r) = some (r, ()) := rfl
    simp only [t1, pbind_none, palt_none, t2, pbind_some, t3, t4]

lemma parse_env_var_changed_norm (name : String) (o v : Option String)
    (h1 : quoteFree name = true) (h2 : optValueQuoteFree o = true)
    (h3 : optValueQuoteFree v = true) :
    parse_env_var_changed ("EnvVarChanged \x7b name: \"".data ++ envVarTail name o v) =
      some ([], RebuildReason.EnvVarChanged name o v) := by
  have s1 : ptag "EnvVarChanged".data
      ("EnvVarChanged \x7b name: \"".data ++ envVarTail name o v) =
      some (" \x7b name: \"".data ++ envVarTail name o v, ()) := rfl
  have s2 : pspace0 (" \x7b name: \"".data ++ envVarTail name o v) =
      some ("\x7b name: \"".data ++ envVarTail name o v, ()) := rfl
  have s3 : pchar '\x7b' ("\x7b name: \"".data ++ envVarTail name o v) =
      some (" name: \"".data ++ envVarTail name o v, ()) := rfl
  have s4 : pspace0 (" name: \"".data ++ envVarTail name o v) =
      some ("name: \"".data ++ envVarTail name o v, ()) := rfl
  have s5 : parse_field_header "name" ("name: \"".data ++ envVarTail name o v) =
      some ('"' :: (name.data ++ '"' :: (", old_value: ".data ++ oldTail o v)), ()) := rfl
  have s6 := parse_quoted_string_append name (", old_value: ".data ++ oldTail o v) h1
  have s7 : parse_comma (", old_value: ".data ++ oldTail o v) =
      some ("old_value: ".data ++ oldTail o v, ()) := rfl
  have s8 : parse_field_header "old_value" ("old_value: ".data ++ oldTail o v) =
      some (oldTail o v, ()) := by cases o <;> rfl
  have s9 : parse_option_string (oldTail o v) =
      some (", new_value: ".data ++ newTail v, o) :=
    parse_option_string_append o (", new_value: ".data ++ newTail v) h2
  have s10 : parse_comma (", new_value: ".data ++ newTail v) =
      some ("new_value: ".data ++ newTail v, ()) := rfl
  have s11 : parse_field_header "new_value" ("new_value: ".data ++ newTail v) =
      some (newTail v, ()) := by cases v <;> rfl
  have s12 : parse_option_string (newTail v) = some (" \x7d".data, v) :=
    parse_option_string_append v " \x7d".data h3
  have s13 : pspace0 (" \x7d".data) = some ("\x7d".data, ()) := rfl
  have s14 : pchar '\x7d' ("\x7d".data) = some ([], ()) := rfl
  unfold parse_env_var_changed
  simp only [s1, pbind_some, s2, s3, s4, s5, s6, s7, s8, s9, s10, s11, s12, s13, s14]

/-- C6: for every variable name and all four present/absent combinations of
old and new value, a line with the `dirty:` marker followed by the
well-formed textual rendering `EnvVarChanged { name: "N", old_value: O,
new_value: V }` parses to exactly that `EnvVarChanged` triple.  The
renderings are well formed provided the name and the present values contain
no double quote (a quote would break the quoting of the rendering itself). -/
theorem c6_env_var_roundtrip (name : String) (o v : Option String)
    (h1 : quoteFree name = true) (h2 : optValueQuoteFree o = true)
    (h3 : optValueQuoteFree v = true) :
    parse_rebuild_reason ("dirty: " ++ renderEnvVarChanged name o v) =
      some (.EnvVarChanged name o v) := by
  have hin : ("dirty: " ++ renderEnvVarChanged name o v).data =
      "dirty: ".data ++ ("EnvVarChanged \x7b name: \"".data ++ envVarTail name o v) := by
    simp only [strdata, renderEnvVarChanged, envVarTail, oldTail, newTail, List.append_assoc]
  have hred : parse_rebuild_reason ("dirty: " ++ renderEnvVarChanged name o v) =
      (match parse_dirty_reason_content
          ("EnvVarChanged \x7b name: \"".data ++ envVarTail name o v) with
       | some (_, reason) => some reason
       | none => none) := by
    unfold parse_rebuild_reason
    rw [hin]
    rfl
  have hd : parse_dirty_reason_content
      ("EnvVarChanged \x7b name: \"".data ++ envVarTail name o v) =
      some ([], RebuildReason.EnvVarChanged name o v) := by
    unfold parse_dirty_reason_content
    rw [parse_env_var_changed_norm name o v h1 h2 h3, palt_some]
  rw [hred, hd]

/-- C6, witness at name `CC`, old value `Some("gcc")`, new value `None`. -/
theorem c6_env_var_roundtrip_witness :
    quoteFree "CC" = true ∧ optValueQuoteFree (some "gcc") = true ∧
    optValueQuoteFree none = true ∧
    parse_rebuild_reason ("dirty: " ++ renderEnvVarChanged "CC" (some "gcc") none) =
      some (.EnvVarChanged "CC" (some "gcc") none) :=
  ⟨by decide, by decide, by decide,
   c6_env_var_roundtrip "CC" (some "gcc") none (by decide) (by decide) (by decide)⟩

end CargoDirty
